import Mathlib

/-!
Shallow embedding of the Genshin bot's timed-resource tracker and
notification dispatcher (src/bot.py).

Time is modelled as integer UTC timestamps in seconds.  Python float
truthiness is preserved: a stored timestamp of `none` or `0` counts as
"not set" (`if not data.get(...)`).  Python floor division `//` on a
nonnegative divisor is Lean `Int` division `/` (E-division, which floors
for positive divisors).  Delivery of a Telegram message may raise; its
outcome is an explicit boolean input (`true` = the send succeeded).
-/

namespace GenshinBot

/-- One per-user record of users.json: name, timezone offset, optional
expedition end timestamp, optional resin baseline (time, value), and the
two notification-acknowledgement flags. -/
structure UserData where
  name : List Char
  timezone : Int
  expedition_end : Option Int
  resin_set_time : Option Int
  resin_at_set : Option Int
  notified_192 : Bool
  notified_full : Bool
deriving DecidableEq

/-- `get_current_resin` of bot.py.  Returns `some 0` when the baseline
time is absent or falsy (0); computes
`min(resin_at_set + (now - set_time) // 480, 200)` otherwise.  Accessing
a missing `resin_at_set` raises a `TypeError` in Python; this is
modelled as `none`. -/
def get_current_resin (data : UserData) (now : Int) : Option Int :=
  match data.resin_set_time with
  | none => some 0
  | some t =>
    if t = 0 then some 0
    else
      match data.resin_at_set with
      | none => none
      | some b => some (min (b + (now - t) / 480) 200)

/-- Delivery outcomes for the up-to-three sends a single user may receive
in one cycle (near-cap message, full-cap message, expedition message). -/
structure Outcomes where
  okNear : Bool
  okFull : Bool
  okExp : Bool
deriving DecidableEq

/-- Result of the first-phase loop body of `check_tasks` for one user:
the updated record, its delivery outcomes, whether the expedition was
detected expired, and whether each resin send was attempted. -/
structure ScanOut where
  data : UserData
  outs : Outcomes
  due : Bool
  sentNear : Bool
  sentFull : Bool
deriving DecidableEq

/-- The expedition expiry test of `check_tasks`
(`if end_ts and now_utc_ts >= end_ts`): the record joins the
`expired_expeditions` list iff the end timestamp is present, truthy
(nonzero) and not in the future. -/
def expedition_due (data : UserData) (now : Int) : Bool :=
  match data.expedition_end with
  | none => false
  | some e => decide (e ≠ 0 ∧ e ≤ now)

/-- The two resin threshold checks of `check_tasks` (lines 466-480).
Each send is attempted when the threshold is reached and the flag is
still false; the flag assignment sits inside the `try`, after the
`await`, so it runs only when the send did not raise. -/
def resin_step (data : UserData) (current : Int) (okNear okFull : Bool) :
    UserData × Bool × Bool :=
  let attemptNear := decide (192 ≤ current) && !data.notified_192
  let d1 := if attemptNear && okNear then { data with notified_192 := true } else data
  let attemptFull := decide (200 ≤ current) && !d1.notified_full
  let d2 := if attemptFull && okFull then { d1 with notified_full := true } else d1
  (d2, attemptNear, attemptFull)

/-- The first-phase loop body of `check_tasks` for one user: record the
expedition expiry test, then run the resin checks.  A `TypeError` from
`get_current_resin` (baseline time set but value missing) propagates,
modelled as `none`. -/
def scan_user (now : Int) (o : Outcomes) (data : UserData) : Option ScanOut :=
  let due := expedition_due data now
  match get_current_resin data now with
  | none => none
  | some current =>
    let r := resin_step data current o.okNear o.okFull
    some ⟨r.1, o, due, r.2.1, r.2.2⟩

/-- A record is well-formed for the scan when evaluating it cannot raise:
either no (truthy) baseline time, or the baseline value is present. -/
def record_ok (data : UserData) : Bool :=
  match data.resin_set_time, data.resin_at_set with
  | some t, none => decide (t = 0)
  | _, _ => true

/-- The first-phase `for` loop of `check_tasks` over all users, in
order.  The single `try/except` wraps the whole loop, so the first
per-record fault stops it: the returned pair is (users processed so far,
unprocessed remainder beginning with the faulting user). -/
def scan_list (now : Int) :
    List (UserData × Outcomes) → List ScanOut × List (UserData × Outcomes)
  | [] => ([], [])
  | (d, o) :: rest =>
    match scan_user now o d with
    | none => ([], (d, o) :: rest)
    | some s =>
      let p := scan_list now rest
      (s :: p.1, p.2)

/-- The second-phase loop body of `check_tasks` (lines 483-494) for one
scanned user: if its expedition was detected expired, attempt the
completion send and clear `expedition_end` — the clearing statement sits
after the `try/except`, so it runs whatever the delivery outcome
`okExp` was.  Returns the final record and whether a send was
attempted. -/
def process_expedition (okExp : Bool) (s : ScanOut) : UserData × Bool :=
  if s.due then ({ s.data with expedition_end := none }, true)
  else (s.data, false)

/-- Observable result of one `check_tasks` cycle: final records, whether
any expedition was detected expired, whether `save_users` ran, whether
an unexpected per-record fault aborted the scan, and per processed user
which sends were attempted (near, full, expedition). -/
structure CycleResult where
  final : List UserData
  expired : Bool
  saved : Bool
  faulted : Bool
  sends : List (Bool × Bool × Bool)
deriving DecidableEq

/-- One full cycle of `check_tasks`: phase-1 scan of every user; if no
fault, the expired-expedition loop, then
`if expired_expeditions or any(notified_192 or notified_full): save`.
On a fault the outer `except` skips the rest of the cycle: records keep
whatever phase-1 updates already happened and no save occurs. -/
def check_cycle (now : Int) (us : List (UserData × Outcomes)) : CycleResult :=
  let p := scan_list now us
  match p.2 with
  | _ :: _ =>
    { final := p.1.map ScanOut.data ++ p.2.map Prod.fst
      expired := p.1.any ScanOut.due
      saved := false
      faulted := true
      sends := p.1.map fun s => (s.sentNear, s.sentFull, false) }
  | [] =>
    let final := p.1.map fun s => (process_expedition s.outs.okExp s).1
    let expired := p.1.any ScanOut.due
    { final := final
      expired := expired
      saved := expired || final.any fun d => d.notified_192 || d.notified_full
      faulted := false
      sends := p.1.map fun s => (s.sentNear, s.sentFull, s.due) }

/-- The validated core of `process_resin` / `set_resin_handler`: a
requested baseline outside [0, 200] raises `ValueError`, is caught, and
the handler returns with the stored record untouched (`false`); an
in-range value overwrites the baseline pair and resets both notified
flags (`true`). -/
def process_resin (d : UserData) (value now : Int) : UserData × Bool :=
  if value < 0 ∨ 200 < value then (d, false)
  else
    ({ d with resin_set_time := some now
              resin_at_set := some value
              notified_192 := false
              notified_full := false }, true)

/-- Python `str.strip()` on a list of characters: drop whitespace from
both ends. -/
def pyStrip (s : List Char) : List Char :=
  ((s.dropWhile Char.isWhitespace).reverse.dropWhile Char.isWhitespace).reverse

/-- `hay` begins with `needle`. -/
def startsWithList : List Char → List Char → Bool
  | _, [] => true
  | [], _ :: _ => false
  | a :: as, b :: bs => a == b && startsWithList as bs

/-- Python substring test `needle in hay`. -/
def containsSub (hay needle : List Char) : Bool :=
  match hay with
  | [] => startsWithList [] needle
  | _ :: rest => startsWithList hay needle || containsSub rest needle

/-- The denylist of `validate_name`:
`["--", ";", "/*", "*/", "union", "select", "drop", "insert"]`. -/
def dangerous : List (List Char) :=
  [['-', '-'], [';'], ['/', '*'], ['*', '/'],
   ['u', 'n', 'i', 'o', 'n'], ['s', 'e', 'l', 'e', 'c', 't'],
   ['d', 'r', 'o', 'p'], ['i', 'n', 's', 'e', 'r', 't']]

/-- `validate_name` of bot.py: reject when the name is empty or its
stripped length is outside 1..50, or when the lower-cased stripped name
contains a denylisted substring; otherwise return the stripped name. -/
def validate_name (name : List Char) : Option (List Char) :=
  if name.isEmpty || decide ((pyStrip name).length < 1)
      || decide (50 < (pyStrip name).length) then none
  else
    let safe := pyStrip name
    if dangerous.any (fun d => containsSub (safe.map Char.toLower) d) then none
    else some safe

/-- Case-insensitive substring occurrence, the spec's reading: lower
both sides and test containment. -/
def ciContains (hay needle : List Char) : Prop :=
  containsSub (hay.map Char.toLower) (needle.map Char.toLower) = true

/-- The acceptance condition exactly as the spec words it: after
trimming, length between 1 and 50, and no denylisted substring occurs
under case-insensitive comparison. -/
def name_valid_spec (name : List Char) : Prop :=
  1 ≤ (pyStrip name).length ∧ (pyStrip name).length ≤ 50 ∧
    ∀ d ∈ dangerous, ¬ ciContains (pyStrip name) d

/-- C3: for a recorded baseline `b ∈ [0, 200]` at a (nonzero, hence
truthy) instant `t` and any elapsed times `0 ≤ dlt ≤ dlt2`, the computed
current resin equals `min 200 (b + dlt / 480)` (resin regenerates 1 per
480 seconds), lies in `[0, 200]`, and is monotonically non-decreasing in
the elapsed time. -/
theorem C3_resin_formula (d : UserData) (t b dlt dlt2 : Int)
    (ht : d.resin_set_time = some t) (hb : d.resin_at_set = some b)
    (ht0 : t ≠ 0) (hb0 : 0 ≤ b) (hb200 : b ≤ 200)
    (h0 : 0 ≤ dlt) (h12 : dlt ≤ dlt2) :
    get_current_resin d (t + dlt) = some (min 200 (b + dlt / 480)) ∧
    0 ≤ min 200 (b + dlt / 480) ∧ min 200 (b + dlt / 480) ≤ 200 ∧
    min 200 (b + dlt / 480) ≤ min 200 (b + dlt2 / 480) := by
  refine ⟨?_, ?_, min_le_left _ _, ?_⟩
  · simp only [get_current_resin, ht, hb, if_neg ht0]
    have harg : t + dlt - t = dlt := by ring
    rw [harg, min_comm]
  · exact le_min (by norm_num)
      (add_nonneg hb0 (Int.ediv_nonneg h0 (by norm_num)))
  · exact min_le_min le_rfl
      (add_le_add_left (Int.ediv_le_ediv (by norm_num) h12) b)

/-- C3 witness: baseline 0 at t = 1, elapsed 3840 s = 8 regen intervals,
second elapsed time 4800 s. -/
theorem C3_resin_formula_witness :
    get_current_resin (⟨[], 0, none, some 1, some 0, false, false⟩ : UserData)
        (1 + 3840) = some (min 200 (0 + 3840 / 480)) ∧
    0 ≤ min 200 ((0 : Int) + 3840 / 480) ∧
    min 200 ((0 : Int) + 3840 / 480) ≤ 200 ∧
    min 200 ((0 : Int) + 3840 / 480) ≤ min 200 (0 + 4800 / 480) :=
  C3_resin_formula ⟨[], 0, none, some 1, some 0, false, false⟩ 1 0 3840 4800
    rfl rfl (by decide) (by decide) (by decide) (by decide) (by decide)

/-- C7: a requested baseline outside [0, 200] makes `process_resin`
fail with the stored record completely unchanged; an in-range value
succeeds, replaces the baseline pair with the value and the current
instant, and resets both notified flags whatever their prior values. -/
theorem C7_rebaseline (d : UserData) (value now : Int) :
    ((value < 0 ∨ 200 < value) → process_resin d value now = (d, false)) ∧
    (0 ≤ value → value ≤ 200 →
      process_resin d value now =
        ({ d with resin_set_time := some now
                  resin_at_set := some value
                  notified_192 := false
                  notified_full := false }, true)) := by
  unfold process_resin
  constructor
  · intro h
    rw [if_pos h]
  · intro h1 h2
    rw [if_neg (by omega)]

/-- C7 witness: a record with both flags set; value 300 is rejected and
leaves it unchanged, value 100 re-baselines it and clears the flags. -/
theorem C7_rebaseline_witness :
    process_resin (⟨[], 0, none, some 7, some 5, true, true⟩ : UserData) 300 9 =
      ((⟨[], 0, none, some 7, some 5, true, true⟩ : UserData), false) ∧
    process_resin (⟨[], 0, none, some 7, some 5, true, true⟩ : UserData) 100 9 =
      ((⟨[], 0, none, some 9, some 100, false, false⟩ : UserData), true) :=
  ⟨(C7_rebaseline ⟨[], 0, none, some 7, some 5, true, true⟩ 300 9).1 (by decide),
   (C7_rebaseline ⟨[], 0, none, some 7, some 5, true, true⟩ 100 9).2
     (by decide) (by decide)⟩

/-- C10: a record whose resin baseline instant is absent computes
current resin `some 0` (total, no failure), so a dispatcher evaluation
attempts neither resin send and leaves the record unchanged. -/
theorem C10_no_baseline (d : UserData) (now : Int) (o : Outcomes)
    (h : d.resin_set_time = none) :
    get_current_resin d now = some 0 ∧
    scan_user now o d = some ⟨d, o, expedition_due d now, false, false⟩ := by
  have hres : get_current_resin d now = some 0 := by
    unfold get_current_resin
    rw [h]
  refine ⟨hres, ?_⟩
  unfold scan_user
  rw [hres]
  simp [resin_step]

/-- C10 witness: a fresh record with no baseline at instant 5000. -/
theorem C10_no_baseline_witness :
    get_current_resin (⟨[], 0, none, none, none, false, false⟩ : UserData) 5000 =
      some 0 ∧
    scan_user 5000 ⟨true, true, true⟩
        (⟨[], 0, none, none, none, false, false⟩ : UserData) =
      some ⟨⟨[], 0, none, none, none, false, false⟩, ⟨true, true, true⟩,
        expedition_due ⟨[], 0, none, none, none, false, false⟩ 5000,
        false, false⟩ :=
  C10_no_baseline ⟨[], 0, none, none, none, false, false⟩ 5000
    ⟨true, true, true⟩ rfl

/-- Every denylisted needle is lower-case invariant. -/
lemma dangerous_toLower : ∀ d ∈ dangerous, d.map Char.toLower = d := by decide

/-- Stripping the empty name gives the empty name. -/
lemma pyStrip_nil : pyStrip [] = [] := rfl

/-- C9: a display name is accepted iff after trimming its length is in
1..50 and no denylisted substring occurs case-insensitively; in
particular the name a-semicolon-space-DROP is rejected and a name of 50
plain characters is accepted. -/
theorem C9_validate_name :
    (∀ name, (validate_name name).isSome = true ↔ name_valid_spec name) ∧
    validate_name ['a', ';', ' ', 'D', 'R', 'O', 'P'] = none ∧
    (validate_name (List.replicate 50 (Char.ofNat 97))).isSome = true := by
  refine ⟨?_, by decide, by decide⟩
  intro name
  unfold validate_name name_valid_spec
  by_cases h1 : (name.isEmpty || decide ((pyStrip name).length < 1)
      || decide (50 < (pyStrip name).length)) = true
  · rw [if_pos h1]
    simp only [Option.isSome_none, Bool.false_eq_true, false_iff]
    intro hcon
    obtain ⟨hl, hr, _⟩ := hcon
    simp only [Bool.or_eq_true, decide_eq_true_eq, List.isEmpty_iff] at h1
    rcases h1 with (h1 | h1) | h1
    · rw [h1, pyStrip_nil] at hl
      simp at hl
    · omega
    · omega
  · rw [if_neg h1]
    simp only [Bool.or_eq_true, decide_eq_true_eq, List.isEmpty_iff, not_or] at h1
    obtain ⟨⟨-, hlen1⟩, hlen2⟩ := h1
    by_cases h2 : (dangerous.any
        (fun d => containsSub ((pyStrip name).map Char.toLower) d)) = true
    · rw [if_pos h2]
      simp only [Option.isSome_none, Bool.false_eq_true, false_iff]
      intro hcon
      obtain ⟨-, -, hforall⟩ := hcon
      simp only [List.any_eq_true] at h2
      obtain ⟨d, hd, hcd⟩ := h2
      exact hforall d hd (by
        unfold ciContains
        rw [dangerous_toLower d hd]
        exact hcd)
    · rw [if_neg h2]
      simp only [Option.isSome_some, true_iff]
      refine ⟨by omega, by omega, ?_⟩
      intro d hd hci
      apply h2
      simp only [List.any_eq_true]
      refine ⟨d, hd, ?_⟩
      unfold ciContains at hci
      rw [dangerous_toLower d hd] at hci
      exact hci

/-- A near-cap send is attempted iff the threshold is reached and the
flag is still clear. -/
lemma resin_step_sentNear (d : UserData) (c : Int) (n f : Bool) :
    (resin_step d c n f).2.1 = (decide (192 ≤ c) && !d.notified_192) := rfl

/-- A full-cap send is attempted iff the threshold is reached and the
flag is still clear. -/
lemma resin_step_sentFull (d : UserData) (c : Int) (n f : Bool) :
    (resin_step d c n f).2.2 = (decide (200 ≤ c) && !d.notified_full) := by
  unfold resin_step
  dsimp only
  split <;> rfl

/-- The near-cap flag after the resin checks: newly set only when the
send was attempted and succeeded. -/
lemma resin_step_n192 (d : UserData) (c : Int) (n f : Bool) :
    (resin_step d c n f).1.notified_192 =
      ((decide (192 ≤ c) && !d.notified_192 && n) || d.notified_192) := by
  unfold resin_step
  dsimp only
  split <;> split <;> simp_all

/-- The full-cap flag after the resin checks: newly set only when the
send was attempted and succeeded. -/
lemma resin_step_nfull (d : UserData) (c : Int) (n f : Bool) :
    (resin_step d c n f).1.notified_full =
      ((decide (200 ≤ c) && !d.notified_full && f) || d.notified_full) := by
  unfold resin_step
  dsimp only
  split <;> split <;> simp_all

/-- The resin checks touch nothing but the two notified flags. -/
lemma resin_step_keeps (d : UserData) (c : Int) (n f : Bool) :
    (resin_step d c n f).1.name = d.name ∧
    (resin_step d c n f).1.timezone = d.timezone ∧
    (resin_step d c n f).1.expedition_end = d.expedition_end ∧
    (resin_step d c n f).1.resin_set_time = d.resin_set_time ∧
    (resin_step d c n f).1.resin_at_set = d.resin_at_set := by
  unfold resin_step
  dsimp only
  split <;> split <;> simp_all

/-- When the resin computation succeeds, `scan_user` succeeds and its
output is determined by `resin_step` and the expedition expiry test. -/
lemma scan_user_eq (now : Int) (o : Outcomes) (d : UserData) (c : Int)
    (hc : get_current_resin d now = some c) :
    scan_user now o d =
      some ⟨(resin_step d c o.okNear o.okFull).1, o, expedition_due d now,
        (resin_step d c o.okNear o.okFull).2.1,
        (resin_step d c o.okNear o.okFull).2.2⟩ := by
  unfold scan_user
  rw [hc]

/-- C1 counterexample: current resin 192, near-cap flag clear, delivery
fails: the send is attempted but `notified_192` stays false, against the
claim that it is set regardless of the delivery outcome. -/
theorem C1_counterexample :
    get_current_resin (⟨[], 0, none, some 1, some 192, false, false⟩ : UserData) 1 =
      some 192 ∧
    (scan_user 1 ⟨false, false, false⟩
        (⟨[], 0, none, some 1, some 192, false, false⟩ : UserData)).map
      (fun s => (s.sentNear, s.data.notified_192)) = some (true, false) := by
  decide

/-- C1 as amended: when a threshold is reached and not yet acknowledged
the delivery is attempted, and the flag is set afterwards exactly when
the delivery succeeded (it stays false on a failed send). -/
theorem C1_flag_iff_delivered (now : Int) (o : Outcomes) (d : UserData) (c : Int)
    (hc : get_current_resin d now = some c) :
    (192 ≤ c → d.notified_192 = false →
      (scan_user now o d).map (fun s => (s.sentNear, s.data.notified_192)) =
        some (true, o.okNear)) ∧
    (200 ≤ c → d.notified_full = false →
      (scan_user now o d).map (fun s => (s.sentFull, s.data.notified_full)) =
        some (true, o.okFull)) := by
  rw [scan_user_eq now o d c hc]
  constructor
  · intro h192 hflag
    simp [resin_step_sentNear, resin_step_n192, hflag, decide_eq_true h192]
  · intro h200 hflag
    simp [resin_step_sentFull, resin_step_nfull, hflag, decide_eq_true h200]

/-- C1 witness: current resin 192 with a failing near-cap delivery. -/
theorem C1_flag_iff_delivered_witness :
    (192 ≤ (192 : Int) →
      (⟨[], 0, none, some 1, some 192, false, false⟩ : UserData).notified_192 = false →
      (scan_user 1 ⟨false, true, true⟩
          (⟨[], 0, none, some 1, some 192, false, false⟩ : UserData)).map
        (fun s => (s.sentNear, s.data.notified_192)) =
          some (true, (⟨false, true, true⟩ : Outcomes).okNear)) ∧
    (200 ≤ (192 : Int) →
      (⟨[], 0, none, some 1, some 192, false, false⟩ : UserData).notified_full = false →
      (scan_user 1 ⟨false, true, true⟩
          (⟨[], 0, none, some 1, some 192, false, false⟩ : UserData)).map
        (fun s => (s.sentFull, s.data.notified_full)) =
          some (true, (⟨false, true, true⟩ : Outcomes).okFull)) :=
  C1_flag_iff_delivered 1 ⟨false, true, true⟩
    ⟨[], 0, none, some 1, some 192, false, false⟩ 192 (by decide)

/-- C2: evaluating a record whose near-cap (resp. full-cap) flag is
already true attempts no send for that threshold and leaves the flag
true, at any instant and for any delivery outcomes — so re-evaluating
such a record any number of times is a no-op for that threshold. -/
theorem C2_idempotent (now : Int) (o : Outcomes) (d : UserData) (s : ScanOut)
    (h : scan_user now o d = some s) :
    (d.notified_192 = true → s.sentNear = false ∧ s.data.notified_192 = true) ∧
    (d.notified_full = true → s.sentFull = false ∧ s.data.notified_full = true) := by
  unfold scan_user at h
  cases hc : get_current_resin d now with
  | none =>
    rw [hc] at h
    exact absurd h (by simp)
  | some c =>
    rw [hc] at h
    simp only [Option.some.injEq] at h
    subst h
    constructor
    · intro hflag
      simp [resin_step_sentNear, resin_step_n192, hflag]
    · intro hflag
      simp [resin_step_sentFull, resin_step_nfull, hflag]

/-- C2 witness: a fully-notified record at cap, evaluated again. -/
theorem C2_idempotent_witness :
    ((⟨[], 0, none, some 1, some 200, true, true⟩ : UserData).notified_192 = true →
      (⟨⟨[], 0, none, some 1, some 200, true, true⟩, ⟨true, true, true⟩,
        false, false, false⟩ : ScanOut).sentNear = false ∧
      (⟨⟨[], 0, none, some 1, some 200, true, true⟩, ⟨true, true, true⟩,
        false, false, false⟩ : ScanOut).data.notified_192 = true) ∧
    ((⟨[], 0, none, some 1, some 200, true, true⟩ : UserData).notified_full = true →
      (⟨⟨[], 0, none, some 1, some 200, true, true⟩, ⟨true, true, true⟩,
        false, false, false⟩ : ScanOut).sentFull = false ∧
      (⟨⟨[], 0, none, some 1, some 200, true, true⟩, ⟨true, true, true⟩,
        false, false, false⟩ : ScanOut).data.notified_full = true) :=
  C2_idempotent 1 ⟨true, true, true⟩ ⟨[], 0, none, some 1, some 200, true, true⟩
    ⟨⟨[], 0, none, some 1, some 200, true, true⟩, ⟨true, true, true⟩,
      false, false, false⟩ (by decide)

/-- C6: a record whose (nonzero) expedition end instant is at or before
the current time is detected expired; the completion send is attempted
and `expedition_end` is cleared whatever the delivery outcome, so any
later cycle sees no pending expedition. -/
theorem C6_expedition_cleared (now : Int) (o : Outcomes) (d : UserData)
    (s : ScanOut) (e : Int) (okExp : Bool) (now2 : Int)
    (he : d.expedition_end = some e) (h0 : e ≠ 0) (hdue : e ≤ now)
    (h : scan_user now o d = some s) :
    s.due = true ∧
    (process_expedition okExp s).2 = true ∧
    (process_expedition okExp s).1.expedition_end = none ∧
    expedition_due (process_expedition okExp s).1 now2 = false := by
  have hdue2 : expedition_due d now = true := by
    unfold expedition_due
    rw [he]
    simp [h0, hdue]
  unfold scan_user at h
  cases hc : get_current_resin d now with
  | none =>
    rw [hc] at h
    exact absurd h (by simp)
  | some c =>
    rw [hc] at h
    simp only [Option.some.injEq] at h
    subst h
    refine ⟨hdue2, ?_, ?_, ?_⟩
    · simp only [process_expedition, hdue2]
      simp
    · simp only [process_expedition, hdue2]
      simp
    · simp only [process_expedition, hdue2]
      simp [expedition_due]

/-- C6 witness: expedition ended at 10, evaluated at 50 with a failing
delivery; the timer is cleared and stays silent at instant 999. -/
theorem C6_expedition_cleared_witness :
    (⟨⟨[], 0, some 10, none, none, false, false⟩, ⟨false, false, false⟩,
      true, false, false⟩ : ScanOut).due = true ∧
    (process_expedition false
      (⟨⟨[], 0, some 10, none, none, false, false⟩, ⟨false, false, false⟩,
        true, false, false⟩ : ScanOut)).2 = true ∧
    (process_expedition false
      (⟨⟨[], 0, some 10, none, none, false, false⟩, ⟨false, false, false⟩,
        true, false, false⟩ : ScanOut)).1.expedition_end = none ∧
    expedition_due (process_expedition false
      (⟨⟨[], 0, some 10, none, none, false, false⟩, ⟨false, false, false⟩,
        true, false, false⟩ : ScanOut)).1 999 = false :=
  C6_expedition_cleared 50 ⟨false, false, false⟩
    ⟨[], 0, some 10, none, none, false, false⟩
    ⟨⟨[], 0, some 10, none, none, false, false⟩, ⟨false, false, false⟩,
      true, false, false⟩ 10 false 999 rfl (by decide) (by decide) (by decide)

/-- C8: baseline 190 at t0, evaluated 100 minutes later: current resin
is 202 capped to 200, both sends are attempted in the same evaluation
and each flag ends up acknowledging its own delivery outcome. -/
theorem C8_double_crossing (t0 : Int) (o : Outcomes) (ht : t0 ≠ 0) :
    get_current_resin (⟨[], 0, none, some t0, some 190, false, false⟩ : UserData)
        (t0 + 6000) = some 200 ∧
    (scan_user (t0 + 6000) o
        (⟨[], 0, none, some t0, some 190, false, false⟩ : UserData)).map
      (fun s => (s.sentNear, s.sentFull, s.data.notified_192, s.data.notified_full)) =
      some (true, true, o.okNear, o.okFull) := by
  have hres : get_current_resin
      (⟨[], 0, none, some t0, some 190, false, false⟩ : UserData) (t0 + 6000) =
      some 200 := by
    simp only [get_current_resin, if_neg ht]
    norm_num
  refine ⟨hres, ?_⟩
  rw [scan_user_eq (t0 + 6000) o _ 200 hres]
  simp [resin_step_sentNear, resin_step_sentFull, resin_step_n192, resin_step_nfull]

/-- C8 witness: t0 = 1 with both deliveries succeeding. -/
theorem C8_double_crossing_witness :
    get_current_resin (⟨[], 0, none, some 1, some 190, false, false⟩ : UserData)
        (1 + 6000) = some 200 ∧
    (scan_user (1 + 6000) ⟨true, true, true⟩
        (⟨[], 0, none, some 1, some 190, false, false⟩ : UserData)).map
      (fun s => (s.sentNear, s.sentFull, s.data.notified_192, s.data.notified_full)) =
      some (true, true, (⟨true, true, true⟩ : Outcomes).okNear,
        (⟨true, true, true⟩ : Outcomes).okFull) :=
  C8_double_crossing 1 ⟨true, true, true⟩ (by decide)

/-- A well-formed record never faults in the resin computation. -/
lemma get_current_resin_isSome (d : UserData) (now : Int)
    (h : record_ok d = true) : ∃ c, get_current_resin d now = some c := by
  unfold get_current_resin
  cases hst : d.resin_set_time with
  | none => exact ⟨0, rfl⟩
  | some t =>
    dsimp only
    by_cases ht : t = 0
    · rw [if_pos ht]
      exact ⟨0, rfl⟩
    · rw [if_neg ht]
      cases hat : d.resin_at_set with
      | none =>
        unfold record_ok at h
        rw [hst, hat] at h
        dsimp only at h
        simp only [decide_eq_true_eq] at h
        exact absurd h ht
      | some b =>
        dsimp only
        exact ⟨_, rfl⟩

/-- C4 as amended: when every record is well-formed, the scan processes
every user whatever the delivery outcomes are (a delivery exception is
caught beside the send and cannot abort the loop); only a malformed
record aborts the remainder of the scan, as the counterexample shows. -/
theorem C4_no_abort_when_wellformed (now : Int) (us : List (UserData × Outcomes))
    (h : ∀ p ∈ us, record_ok p.1 = true) :
    (scan_list now us).2 = [] ∧ (scan_list now us).1.length = us.length := by
  induction us with
  | nil => exact ⟨rfl, rfl⟩
  | cons hd tl ih =>
    obtain ⟨d, o⟩ := hd
    have hok := h (d, o) (List.mem_cons_self _ _)
    obtain ⟨c, hc⟩ := get_current_resin_isSome d now hok
    have ihh := ih fun p hp => h p (List.mem_cons_of_mem _ hp)
    rw [scan_list, scan_user_eq now o d c hc]
    dsimp only
    exact ⟨ihh.1, by simp [ihh.2]⟩

/-- If neither flag is set after the resin checks, the record is
untouched. -/
lemma resin_step_unchanged (d : UserData) (c : Int) (n f : Bool)
    (h1 : (resin_step d c n f).1.notified_192 = false)
    (h2 : (resin_step d c n f).1.notified_full = false) :
    (resin_step d c n f).1 = d := by
  have e192 := resin_step_n192 d c n f
  have efull := resin_step_nfull d c n f
  rw [h1] at e192
  rw [h2] at efull
  have hc1 : (decide (192 ≤ c) && !d.notified_192 && n) = false := by
    cases hx : (decide (192 ≤ c) && !d.notified_192 && n)
    · rfl
    · rw [hx] at e192
      simp at e192
  have hc2 : (decide (200 ≤ c) && !d.notified_full && f) = false := by
    cases hx : (decide (200 ≤ c) && !d.notified_full && f)
    · rfl
    · rw [hx] at efull
      simp at efull
  unfold resin_step
  dsimp only
  simp [hc1, hc2]

/-- A scanned record whose output flags are both clear came out exactly
as it went in. -/
lemma scan_user_unchanged (now : Int) (o : Outcomes) (d : UserData) (s : ScanOut)
    (h : scan_user now o d = some s)
    (h1 : s.data.notified_192 = false) (h2 : s.data.notified_full = false) :
    s.data = d := by
  unfold scan_user at h
  cases hc : get_current_resin d now with
  | none =>
    rw [hc] at h
    exact absurd h (by simp)
  | some c =>
    rw [hc] at h
    simp only [Option.some.injEq] at h
    subst h
    exact resin_step_unchanged d c o.okNear o.okFull h1 h2

/-- A fault-free scan in which no expedition was detected expired and
no output record has a notified flag set leaves the store exactly as it
was. -/
lemma scan_list_nochange (now : Int) (us : List (UserData × Outcomes))
    (hrem : (scan_list now us).2 = [])
    (hall : ∀ s ∈ (scan_list now us).1,
      s.due = false ∧ s.data.notified_192 = false ∧ s.data.notified_full = false) :
    (scan_list now us).1.map (fun s => (process_expedition s.outs.okExp s).1) =
      us.map Prod.fst := by
  induction us with
  | nil => rfl
  | cons hd tl ih =>
    obtain ⟨d, o⟩ := hd
    cases hsu : scan_user now o d with
    | none =>
      rw [scan_list, hsu] at hrem
      dsimp only at hrem
      exact absurd hrem (by simp)
    | some s =>
      rw [scan_list, hsu] at hrem hall ⊢
      dsimp only at hrem hall ⊢
      have hs := hall s (List.mem_cons_self _ _)
      have htl := ih hrem fun x hx => hall x (List.mem_cons_of_mem _ hx)
      rw [List.map_cons, htl]
      have hdata : s.data = d := scan_user_unchanged now o d s hsu hs.2.1 hs.2.2
      have hpe : process_expedition s.outs.okExp s = (s.data, false) := by
        unfold process_expedition
        rw [if_neg]
        simp [hs.1]
      rw [hpe, hdata]
      rfl

/-- C5 as amended: a fault-free cycle that does not save changed
nothing — equivalently any change forces a save.  The converse direction
of the claim fails: the save condition re-reads the notified flags of
ALL records, so a cycle that changed nothing still saves whenever some
flag is left true from an earlier cycle (see the counterexample). -/
theorem C5_save_on_change (now : Int) (us : List (UserData × Outcomes))
    (hf : (check_cycle now us).faulted = false)
    (hs : (check_cycle now us).saved = false) :
    (check_cycle now us).final = us.map Prod.fst := by
  cases hrem : (scan_list now us).2 with
  | cons a l =>
    exfalso
    unfold check_cycle at hf
    dsimp only at hf
    rw [hrem] at hf
    dsimp only at hf
    exact absurd hf (by simp)
  | nil =>
    unfold check_cycle at hs ⊢
    dsimp only at hs ⊢
    rw [hrem] at hs ⊢
    dsimp only at hs ⊢
    simp only [Bool.or_eq_false_iff] at hs
    obtain ⟨hexp, hany⟩ := hs
    apply scan_list_nochange now us hrem
    intro s hsmem
    have hdue : s.due = false := by
      have hx := List.any_eq_false.mp hexp s hsmem
      simpa using hx
    refine ⟨hdue, ?_⟩
    have hmem2 : (process_expedition s.outs.okExp s).1 ∈
        (scan_list now us).1.map (fun s => (process_expedition s.outs.okExp s).1) :=
      List.mem_map_of_mem _ hsmem
    have hflags := List.any_eq_false.mp hany _ hmem2
    have hpe : process_expedition s.outs.okExp s = (s.data, false) := by
      unfold process_expedition
      rw [if_neg]
      simp [hdue]
    rw [hpe] at hflags
    simp only [Bool.or_eq_true, not_or, Bool.not_eq_true] at hflags
    exact hflags

/-- C4 counterexample: the first record is malformed (baseline time set,
baseline value missing), so the scan aborts before the second user —
whose resin is at 192 with a working delivery — is ever evaluated: no
send is attempted and its flag stays false, against the claim that one
user's fault never aborts the scan of the others. -/
theorem C4_counterexample :
    record_ok (⟨[], 0, none, some 1, none, false, false⟩ : UserData) = false ∧
    get_current_resin (⟨[], 0, none, some 1, some 192, false, false⟩ : UserData)
      1000 = some 194 ∧
    check_cycle 1000
      [((⟨[], 0, none, some 1, none, false, false⟩ : UserData), ⟨true, true, true⟩),
       ((⟨[], 0, none, some 1, some 192, false, false⟩ : UserData), ⟨true, true, true⟩)] =
      { final := [⟨[], 0, none, some 1, none, false, false⟩,
          ⟨[], 0, none, some 1, some 192, false, false⟩],
        expired := false, saved := false, faulted := true, sends := [] } := by
  decide

/-- C4 witness: two well-formed records, both deliveries failing — the
scan still reaches both users. -/
theorem C4_no_abort_when_wellformed_witness :
    (scan_list 1000
      [((⟨[], 0, none, some 1, some 192, false, false⟩ : UserData),
        ⟨false, false, false⟩),
       ((⟨[], 0, none, none, none, false, false⟩ : UserData),
        ⟨false, false, false⟩)]).2 = [] ∧
    (scan_list 1000
      [((⟨[], 0, none, some 1, some 192, false, false⟩ : UserData),
        ⟨false, false, false⟩),
       ((⟨[], 0, none, none, none, false, false⟩ : UserData),
        ⟨false, false, false⟩)]).1.length =
      ([((⟨[], 0, none, some 1, some 192, false, false⟩ : UserData),
        (⟨false, false, false⟩ : Outcomes)),
       ((⟨[], 0, none, none, none, false, false⟩ : UserData),
        ⟨false, false, false⟩)] : List (UserData × Outcomes)).length :=
  C4_no_abort_when_wellformed 1000 _ (by decide)

/-- C5 counterexample: one record with `notified_192` still true from an
earlier cycle; at this instant its resin is 1, nothing is due, nothing
is sent, the final store equals the initial store — yet the cycle saves,
against the claim that an unchanged cycle performs no snapshot write. -/
theorem C5_counterexample :
    check_cycle 481
      [((⟨[], 0, none, some 1, some 0, true, false⟩ : UserData),
        ⟨true, true, true⟩)] =
      { final := [⟨[], 0, none, some 1, some 0, true, false⟩],
        expired := false, saved := true, faulted := false,
        sends := [(false, false, false)] } := by
  decide

/-- C5 witness: a cycle over one flag-free quiet record does not save
and leaves the store unchanged. -/
theorem C5_save_on_change_witness :
    (check_cycle 481
      [((⟨[], 0, none, some 1, some 0, false, false⟩ : UserData),
        ⟨true, true, true⟩)]).final =
      ([((⟨[], 0, none, some 1, some 0, false, false⟩ : UserData),
        (⟨true, true, true⟩ : Outcomes))] : List (UserData × Outcomes)).map
        Prod.fst :=
  C5_save_on_change 481 _ (by decide) (by decide)

end GenshinBot
